import Mathlib

/-!
# Verification of the gallon data layer (`gallon/data.py`)

Shallow embedding of the record/validation core:

* `Value` models the Python runtime values the library manipulates.
  `Value.ellipsis` is the `Required` sentinel (`Required: Any = Ellipsis`).
* `DataFieldModel` models the field-spec class of the same name
  (default, default factory, required/index/unique flags).
* `DataFieldModel.set` models the descriptor write `DataFieldModel.__set__`
  (data.py lines 91-102), including its lack of a value type check.
* `initField` models the per-field body of `DataClass.__init__`
  (data.py lines 150-185): default/factory resolution, metadata appends
  and the final `setattr` that re-enters the descriptor write.
* `construct` models a whole `DataClass(**kwargs)` call.  The `Metadata`
  argument threads the *class-level* dict `metadata = {"indexes": [], "uniques": []}`
  (data.py line 146), which the source mutates in place on every
  construction, so it is shared state passed from one construction to the next.
* `defineRecordType` models `DataMetaClass.__new__` (data.py lines 22-32):
  every attribute holding a `DataFieldModel` must appear in the class
  annotations, otherwise class creation raises.

Default factories are modelled as `Nat → Value`: the argument is the
per-construction invocation index for that field, so invocation counts are
observable.  Exceptions are modelled with `Except Err`.
-/

namespace Gallon

/-- Python runtime values used by the library.  `ellipsis` is the `Required`
sentinel; `withJson` stands for an arbitrary object exposing a `json()`
method returning the given text (for example a nested `GallonModel`). -/
inductive Value where
  | none
  | ellipsis
  | bool (b : Bool)
  | int (n : Int)
  | str (s : String)
  | bytes (bs : List Nat)
  | list (elems : List Value)
  | dict (entries : List (String × Value))
  | withJson (text : String)

/-- `value is None` in Python. -/
def Value.isNone : Value → Bool
  | .none => true
  | _ => false

/-- `value == Required` in Python (`Required` is `Ellipsis`, equal only to itself). -/
def Value.isEllipsis : Value → Bool
  | .ellipsis => true
  | _ => false

/-- Type annotations that can appear on a record field. -/
inductive Ty where
  | objT
  | boolT
  | intT
  | strT
  | bytesT
  | listT
  | dictT
deriving DecidableEq

/-- Python `isinstance(value, ty)`.  Everything (including `None`) is an
`object`; `bool` is a subclass of `int`. -/
def isinst : Value → Ty → Bool
  | _, .objT => true
  | .bool _, .boolT => true
  | .bool _, .intT => true
  | .int _, .intT => true
  | .str _, .strT => true
  | .bytes _, .bytesT => true
  | .list _, .listT => true
  | .dict _, .dictT => true
  | _, _ => false

/-- The exceptions the dataclass layer raises.  `configurationError` is the
`TypeError` raised by `DataMetaClass.__new__` for an unannotated field spec;
`missingRequiredField` is the `ValueError` "... is required";
`typeMismatch` is the `TypeError` "... must be of type ...". -/
inductive Err where
  | configurationError (name : String)
  | missingRequiredField (name : String)
  | typeMismatch (name : String)
deriving DecidableEq

/-- The class-level dict `metadata = {"indexes": [], "uniques": []}`
(data.py line 146).  It lives on `DataClass` itself and is mutated in place
by every construction. -/
structure Metadata where
  indexes : List String
  uniques : List String
deriving DecidableEq

/-- The field-spec class `DataFieldModel` (data.py lines 68-117).  The
factory takes the per-construction invocation index so that invocation
counts can be stated. -/
structure DataFieldModel where
  default : Value := .none
  default_factory : Option (Nat → Value) := Option.none
  required : Option Bool := Option.none
  index : Option Bool := Option.none
  unique : Option Bool := Option.none

/-- One declared field of a record type: its name, its resolved type
annotation, and the `DataFieldModel` class attribute if the field carries
one (`getattr(self.__class__, name)` in `DataClass.__init__`). -/
structure FieldDecl where
  name : String
  ty : Ty
  spec : Option DataFieldModel

/-- `DataFieldModel.__set__` (data.py lines 91-102), for a field already
attached to an annotated class (so the `self.type is None` configuration
check of `DataFieldDescriptor.__set__`, lines 57-61, cannot fire).  Note
neither `__set__` performs any `isinstance` check on the incoming value:
a `None` value is replaced by the static default or a fresh factory call,
anything else is stored as-is.  `calls` counts this field's factory
invocations so far in the current construction. -/
def DataFieldModel.set (f : DataFieldModel) (name : String) (value : Value)
    (calls : Nat) : Except Err (Value × Nat) :=
  if f.default.isEllipsis && value.isNone then
    .error (.missingRequiredField name)
  else if value.isNone then
    if !f.default.isNone then
      .ok (f.default, calls)
    else
      match f.default_factory with
      | some g => .ok (g calls, calls + 1)
      | none => .ok (.none, calls)
  else
    .ok (value, calls)

/-- The per-field body of `DataClass.__init__` (data.py lines 150-185).

The check at line 152, `type(value) not in (type(value), DataFieldModel)`,
is vacuous — the tuple's first element is `type(value)` itself, so the
condition is always `False` and no error can ever be raised there; it is
therefore not represented.  The inner re-check at lines 171-174
(`isinstance(value, attr.type) is False` immediately after assigning a
default that already passed the same test) likewise cannot fire.

Returns the value passed to `setattr` after running the descriptor write,
this field's factory invocation count, and the mutated shared metadata. -/
def initField (f : FieldDecl) (value : Value) (md : Metadata) :
    Except Err (Value × Nat × Metadata) :=
  match f.spec with
  | none => .ok (value, 0, md)
  | some attr =>
    let step : Except Err (Value × Nat) :=
      if attr.default.isEllipsis && value.isNone then
        match attr.default_factory with
        | some g =>
          let v := g 0
          if !(isinst v f.ty) then .error (.typeMismatch f.name) else .ok (v, 1)
        | none => .error (.missingRequiredField f.name)
      else if value.isNone then
        if !attr.default.isNone then
          if isinst attr.default f.ty then
            .ok (attr.default, 0)
          else
            .ok (.none, 0)
        else
          match attr.default_factory with
          | some g =>
            let v := g 0
            if !(isinst v f.ty) then .error (.typeMismatch f.name) else .ok (v, 1)
          | none => .ok (.none, 0)
      else
        .ok (value, 0)
    match step with
    | .error e => .error e
    | .ok (v, calls) =>
      let md1 : Metadata :=
        { indexes := if attr.index.isSome then md.indexes ++ [f.name] else md.indexes
          uniques := if attr.unique.isSome then md.uniques ++ [f.name] else md.uniques }
      match attr.set f.name v calls with
      | .error e => .error e
      | .ok (v2, calls2) => .ok (v2, calls2, md1)

/-- A whole `DataClass(**kwargs)` call: iterate the annotated fields in
declaration order, resolving each through `initField`.  `kw` models
`kwargs.get(name)` (returning `None` for absent keys); `md` is the shared
class-level metadata dict as it stands when the construction starts.
Returns the instance `__dict__` (field values in declaration order), the
per-field factory invocation counts, and the metadata dict after the
construction's in-place appends. -/
def construct : List FieldDecl → (String → Value) → Metadata →
    Except Err (List (String × Value) × List (String × Nat) × Metadata)
  | [], _, md => .ok ([], [], md)
  | f :: rest, kw, md =>
    match initField f (kw f.name) md with
    | .error e => .error e
    | .ok (v, calls, md1) =>
      match construct rest kw md1 with
      | .error e => .error e
      | .ok (fs, cs, md2) => .ok ((f.name, v) :: fs, (f.name, calls) :: cs, md2)

/-- Does the class annotation table contain this name?
(`attr_name in attrs.get("__annotations__", {})`). -/
def hasAnn (anns : List (String × Ty)) (n : String) : Bool :=
  anns.any (fun p => p.1 = n)

/-- First class attribute that holds a `DataFieldModel` but has no type
annotation, in declaration order (`DataMetaClass.__new__` raises at the
first offender). -/
def firstUnannotated (specs : List (String × DataFieldModel))
    (anns : List (String × Ty)) : Option String :=
  match specs with
  | [] => Option.none
  | (n, _) :: rest => if hasAnn anns n then firstUnannotated rest anns else some n

/-- Look up the `DataFieldModel` class attribute for a field name
(`getattr(self.__class__, name, None)`). -/
def lookupSpec : List (String × DataFieldModel) → String → Option DataFieldModel
  | [], _ => Option.none
  | (n, s) :: rest, m => if n = m then some s else lookupSpec rest m

/-- `DataMetaClass.__new__` (data.py lines 22-32): class creation fails with
a `TypeError` if any `DataFieldModel` attribute lacks a type annotation;
otherwise it yields the record type's field declarations, which are the
only route to `construct` — so the check runs at type-definition time,
before any instantiation is possible. -/
def defineRecordType (specs : List (String × DataFieldModel))
    (anns : List (String × Ty)) : Except Err (List FieldDecl) :=
  match firstUnannotated specs anns with
  | some n => .error (.configurationError n)
  | none => .ok (anns.map (fun p => ⟨p.1, p.2, lookupSpec specs p.1⟩))

/-! ## The `User` scenario from the specification

`User { id: str unique=true, name: str default="anon", age: int required=true }`. -/

/-- `id: str = field(unique=True)`. -/
def idSpec : DataFieldModel := { unique := some true }

/-- `name: str = field(default="anon")`. -/
def nameSpec : DataFieldModel := { default := .str "anon" }

/-- `age: int = field(default=Required, required=True)`. -/
def ageSpec : DataFieldModel := { default := .ellipsis, required := some true }

/-- Declared field `id`. -/
def idDecl : FieldDecl := ⟨"id", .strT, some idSpec⟩

/-- Declared field `name`. -/
def nameDecl : FieldDecl := ⟨"name", .strT, some nameSpec⟩

/-- Declared field `age`. -/
def ageDecl : FieldDecl := ⟨"age", .intT, some ageSpec⟩

/-- The `User` record type, in declaration order. -/
def userDecls : List FieldDecl := [idDecl, nameDecl, ageDecl]

/-- The keyword arguments of `User(age=30)`: `kwargs.get` yields `None`
for every other field. -/
def kwAge30 : String → Value := fun n => if n = "age" then .int 30 else .none

/-- A field carrying both a non-null static default and a default factory. -/
def bothSpec : DataFieldModel :=
  { default := .int 5, default_factory := some (fun _ => .int 7) }

/-- The record type `{ x: int = field(default=5, default_factory=λ: 7) }`. -/
def bothDecl : FieldDecl := ⟨"x", .intT, some bothSpec⟩

/-! ## Base64 (model of `base64.b64encode` / `base64.b64decode`)

Bytes are `Nat`s below 256; six-bit groups are written with `/`, `%` and `*`
rather than bit operations. -/

/-- Code point of the base64 alphabet character for a six-bit value. -/
def b64code (n : Nat) : Nat :=
  if n < 26 then 65 + n
  else if n < 52 then 71 + n
  else if n < 62 then n - 4
  else if n = 62 then 43
  else 47

/-- The base64 alphabet character for a six-bit value. -/
def b64chr (n : Nat) : Char := Char.ofNat (b64code n)

/-- Six-bit value of a base64 alphabet character; `64` for anything else
(in particular for the padding character). -/
def b64inv (c : Char) : Nat :=
  if 65 ≤ c.toNat ∧ c.toNat ≤ 90 then c.toNat - 65
  else if 97 ≤ c.toNat ∧ c.toNat ≤ 122 then c.toNat - 71
  else if 48 ≤ c.toNat ∧ c.toNat ≤ 57 then c.toNat + 4
  else if c.toNat = 43 then 62
  else if c.toNat = 47 then 63
  else 64

/-- RFC 4648 base64 of a byte sequence (`base64.b64encode`), three bytes at
a time with `=` padding. -/
def b64encodeCore : List Nat → List Char
  | [] => []
  | [a] => [b64chr (a / 4), b64chr (a % 4 * 16), '=', '=']
  | [a, b] => [b64chr (a / 4), b64chr (a % 4 * 16 + b / 16), b64chr (b % 16 * 4), '=']
  | a :: b :: c :: rest =>
    b64chr (a / 4) :: b64chr (a % 4 * 16 + b / 16) :: b64chr (b % 16 * 4 + c / 64) ::
      b64chr (c % 64) :: b64encodeCore rest

/-- Base64 decoding (`base64.b64decode`), four characters at a time,
recognising padding through `b64inv`'s sentinel. -/
def b64decodeCore : List Char → List Nat
  | c1 :: c2 :: c3 :: c4 :: rest =>
    if b64inv c3 = 64 then [b64inv c1 * 4 + b64inv c2 / 16]
    else if b64inv c4 = 64 then
      [b64inv c1 * 4 + b64inv c2 / 16, b64inv c2 % 16 * 16 + b64inv c3 / 4]
    else
      (b64inv c1 * 4 + b64inv c2 / 16) :: (b64inv c2 % 16 * 16 + b64inv c3 / 4) ::
        (b64inv c3 % 4 * 64 + b64inv c4) :: b64decodeCore rest
  | _ => []

/-- `base64.b64decode` on a string. -/
def b64decode (s : String) : List Nat := b64decodeCore s.data

/-! ## UTF-8 decoding (model of `bytes.decode()`)

Strict UTF-8: rejects stray continuation bytes, overlong forms, surrogate
code points and values above `U+10FFFF`, like CPython's strict codec. -/

/-- Is `x` a UTF-8 continuation byte? -/
def utf8Cont (x : Nat) : Bool := 128 ≤ x && x < 192

/-- Decode a byte list to code points, or `none` on any invalid sequence. -/
def utf8DecodeCore : List Nat → Option (List Char)
  | [] => some []
  | b1 :: rest =>
    if b1 < 128 then
      (utf8DecodeCore rest).map (fun cs => Char.ofNat b1 :: cs)
    else if b1 < 194 then
      Option.none
    else if b1 < 224 then
      match rest with
      | b2 :: rest2 =>
        if utf8Cont b2 then
          (utf8DecodeCore rest2).map (fun cs =>
            Char.ofNat ((b1 - 192) * 64 + (b2 - 128)) :: cs)
        else Option.none
      | [] => Option.none
    else if b1 < 240 then
      match rest with
      | b2 :: b3 :: rest3 =>
        if ((if b1 = 224 then 160 else 128) ≤ b2
              && b2 < (if b1 = 237 then 160 else 192)) && utf8Cont b3 then
          (utf8DecodeCore rest3).map (fun cs =>
            Char.ofNat ((b1 - 224) * 4096 + (b2 - 128) * 64 + (b3 - 128)) :: cs)
        else Option.none
      | _ => Option.none
    else if b1 < 245 then
      match rest with
      | b2 :: b3 :: b4 :: rest4 =>
        if ((if b1 = 240 then 144 else 128) ≤ b2
              && b2 < (if b1 = 244 then 144 else 192)) && utf8Cont b3 && utf8Cont b4 then
          (utf8DecodeCore rest4).map (fun cs =>
            Char.ofNat ((b1 - 240) * 262144 + (b2 - 128) * 4096 + (b3 - 128) * 64
              + (b4 - 128)) :: cs)
        else Option.none
      | _ => Option.none
    else Option.none

/-- `bytes.decode()`: the text a byte sequence denotes under UTF-8, if any. -/
def utf8Decode (bs : List Nat) : Option String :=
  (utf8DecodeCore bs).map String.mk

/-- The `bytes` branch of `GallonEncoder.default` (data.py lines 203-207):
try UTF-8 text decoding, and on `UnicodeDecodeError` return the base64
rendering instead (`base64.b64encode(o).decode()` — the base64 alphabet is
ASCII, so the final decode is the identity on those characters). -/
def encodeBytes (bs : List Nat) : String :=
  match utf8Decode bs with
  | some s => s
  | none => String.mk (b64encodeCore bs)

/-! ## JSON values, `json.dumps` and `json.loads`

`JValue` is the JSON-native universe (`EncodedValue` in the spec); numbers
are modelled as integers, the only numerals the claims exercise.  The
recursive walkers carry explicit fuel standing for CPython's recursion
limit; `PYFUEL` is that limit, far above any depth the claims reach. -/

/-- A JSON-native value. -/
inductive JValue where
  | null
  | bool (b : Bool)
  | num (n : Int)
  | str (s : String)
  | arr (elems : List JValue)
  | obj (entries : List (String × JValue))

/-- CPython's default recursion limit, used as fuel for the value walkers. -/
def PYFUEL : Nat := 1000

/-- `json.dumps(·, cls=GallonEncoder)` seen from the value side: convert a
Python value to the JSON-native value the emitted text denotes.  Native
types pass through; for the rest `GallonEncoder.default` (data.py lines
197-210) is consulted — its branches, in source order: `datetime` and
`UUID` (string renderings, not modelled — no claim touches them), `bytes`
(UTF-8 text or base64, `encodeBytes`), then any object with a `json`
attribute, whose `json()` text is embedded as a plain string.  A value
with no applicable rule (here the `Required` sentinel) makes the base
encoder raise `TypeError`, hence `none`. -/
def pyToJ : Nat → Value → Option JValue
  | 0, _ => Option.none
  | _ + 1, .none => some .null
  | _ + 1, .ellipsis => Option.none
  | _ + 1, .bool b => some (.bool b)
  | _ + 1, .int n => some (.num n)
  | _ + 1, .str s => some (.str s)
  | _ + 1, .bytes bs => some (.str (encodeBytes bs))
  | _ + 1, .withJson t => some (.str t)
  | n + 1, .list l => (l.mapM (pyToJ n)).map .arr
  | n + 1, .dict l =>
    (l.mapM (fun p => (pyToJ n p.2).map (fun j => (p.1, j)))).map .obj

/-- JSON string escaping for one character (the escapes the library's
output exercises; `json.dumps` additionally escapes control characters and
non-ASCII text, which no claim reaches). -/
def jEscapeChar (c : Char) : String :=
  if c = '"' then "\\\""
  else if c = '\\' then "\\\\"
  else if c = '\n' then "\\n"
  else if c = '\t' then "\\t"
  else if c = '\r' then "\\r"
  else String.singleton c

/-- JSON string escaping. -/
def jEscape (s : String) : String := String.join (s.data.map jEscapeChar)

/-- A JSON string literal. -/
def jStrLit (s : String) : String := "\"" ++ jEscape s ++ "\""

/-- Compact `json.dumps` (no indent: item separator `", "`, key separator
`": "`). -/
def dumpJ : Nat → JValue → Option String
  | 0, _ => Option.none
  | _ + 1, .null => some "null"
  | _ + 1, .bool true => some "true"
  | _ + 1, .bool false => some "false"
  | _ + 1, .num n => some (toString n)
  | _ + 1, .str s => some (jStrLit s)
  | n + 1, .arr l =>
    (l.mapM (dumpJ n)).map (fun ss => "[" ++ String.intercalate ", " ss ++ "]")
  | n + 1, .obj l =>
    (l.mapM (fun p => (dumpJ n p.2).map (fun s => jStrLit p.1 ++ ": " ++ s))).map
      (fun ss => "\x7b" ++ String.intercalate ", " ss ++ "\x7d")

/-- A run of spaces. -/
def spacesN (n : Nat) : String := String.mk (List.replicate n ' ')

/-- `json.dumps(·, indent=4)`: each container item on its own line,
indented four spaces deeper; empty containers stay compact; scalars render
as in the compact form. -/
def dump4 : Nat → Nat → JValue → Option String
  | 0, _, _ => Option.none
  | _ + 1, _, .null => some "null"
  | _ + 1, _, .bool true => some "true"
  | _ + 1, _, .bool false => some "false"
  | _ + 1, _, .num n => some (toString n)
  | _ + 1, _, .str s => some (jStrLit s)
  | _ + 1, _, .arr [] => some "[]"
  | n + 1, ind, .arr (x :: xs) =>
    ((x :: xs).mapM (dump4 n (ind + 4))).map (fun ss =>
      "[\n" ++ String.intercalate ",\n" (ss.map (fun s => spacesN (ind + 4) ++ s)) ++
        "\n" ++ spacesN ind ++ "]")
  | _ + 1, _, .obj [] => some "\x7b\x7d"
  | n + 1, ind, .obj (x :: xs) =>
    ((x :: xs).mapM (fun p =>
        (dump4 n (ind + 4) p.2).map (fun s => jStrLit p.1 ++ ": " ++ s))).map
      (fun ss =>
        "\x7b\n" ++ String.intercalate ",\n" (ss.map (fun s => spacesN (ind + 4) ++ s)) ++
          "\n" ++ spacesN ind ++ "\x7d")

/-- Skip JSON whitespace. -/
def skipWs (cs : List Char) : List Char :=
  cs.dropWhile (fun c => c = ' ' || c = '\n' || c = '\t' || c = '\r')

/-- Undo one JSON escape. -/
def unescapeChar (c : Char) : Option Char :=
  if c = '"' then some '"'
  else if c = '\\' then some '\\'
  else if c = '/' then some '/'
  else if c = 'n' then some '\n'
  else if c = 't' then some '\t'
  else if c = 'r' then some '\r'
  else Option.none

/-- Parse the body of a JSON string literal (after the opening quote),
returning its characters and the input after the closing quote. -/
def parseStrCore : List Char → Option (List Char × List Char)
  | [] => Option.none
  | '"' :: rest => some ([], rest)
  | '\\' :: e :: rest =>
    match unescapeChar e with
    | some c => (parseStrCore rest).map (fun p => (c :: p.1, p.2))
    | none => Option.none
  | c :: rest => (parseStrCore rest).map (fun p => (c :: p.1, p.2))

/-- Consume leading decimal digits, accumulating their value. -/
def parseDigits : List Char → Nat → Nat × List Char
  | c :: rest, acc =>
    if c.isDigit then parseDigits rest (acc * 10 + (c.toNat - 48)) else (acc, c :: rest)
  | [], acc => (acc, [])

mutual

/-- Parse one JSON value (`json.loads` grammar restricted to the integer
numerals the library's outputs contain), returning it with the remaining
input. -/
def parseValue : Nat → List Char → Option (JValue × List Char)
  | 0, _ => Option.none
  | n + 1, cs =>
    match skipWs cs with
    | 'n' :: 'u' :: 'l' :: 'l' :: rest => some (.null, rest)
    | 't' :: 'r' :: 'u' :: 'e' :: rest => some (.bool true, rest)
    | 'f' :: 'a' :: 'l' :: 's' :: 'e' :: rest => some (.bool false, rest)
    | '"' :: rest => (parseStrCore rest).map (fun p => (.str (String.mk p.1), p.2))
    | '\x7b' :: rest =>
      (match skipWs rest with
       | '\x7d' :: rest2 => some (.obj [], rest2)
       | _ => (parseEntries n rest).map (fun p => (.obj p.1, p.2)))
    | '[' :: rest =>
      (match skipWs rest with
       | ']' :: rest2 => some (.arr [], rest2)
       | _ => (parseItems n rest).map (fun p => (.arr p.1, p.2)))
    | c :: rest =>
      if c = '-' then
        match rest with
        | d :: _ =>
          if d.isDigit then
            match parseDigits rest 0 with
            | (m, r) => some (.num (-(m : Int)), r)
          else Option.none
        | [] => Option.none
      else if c.isDigit then
        match parseDigits (c :: rest) 0 with
        | (m, r) => some (.num (m : Int), r)
      else Option.none
    | [] => Option.none

/-- Parse the items of a non-empty JSON array after `[`. -/
def parseItems : Nat → List Char → Option (List JValue × List Char)
  | 0, _ => Option.none
  | n + 1, cs =>
    match parseValue n cs with
    | Option.none => Option.none
    | some (v, r) =>
      match skipWs r with
      | ',' :: r2 => (parseItems n r2).map (fun p => (v :: p.1, p.2))
      | ']' :: r2 => some ([v], r2)
      | _ => Option.none

/-- Parse the entries of a non-empty JSON object after the opening brace. -/
def parseEntries : Nat → List Char → Option (List (String × JValue) × List Char)
  | 0, _ => Option.none
  | n + 1, cs =>
    match skipWs cs with
    | '"' :: r0 =>
      (match parseStrCore r0 with
       | Option.none => Option.none
       | some (k, r1) =>
         match skipWs r1 with
         | ':' :: r2 =>
           (match parseValue n r2 with
            | Option.none => Option.none
            | some (v, r3) =>
              match skipWs r3 with
              | ',' :: r4 => (parseEntries n r4).map (fun p => ((String.mk k, v) :: p.1, p.2))
              | '\x7d' :: r4 => some ([(String.mk k, v)], r4)
              | _ => Option.none)
         | _ => Option.none)
    | _ => Option.none

end

/-- `json.loads`: parse a complete JSON text (fuel amply covers the input;
trailing garbage is rejected, as CPython does). -/
def jsonLoads (s : String) : Option JValue :=
  match parseValue (2 * s.data.length + 2) s.data with
  | some (v, rest) => if (skipWs rest).isEmpty then some v else Option.none
  | Option.none => Option.none

/-- `json.dumps(dct, cls=GallonEncoder)`: encoder-mediated conversion
followed by compact text rendering. -/
def gallonDumps (v : Value) : Option String := (pyToJ PYFUEL v).bind (dumpJ PYFUEL)

/-- `parse` (data.py lines 213-222): dump the value to JSON text and read
it back.  Both branches of the source's `if exclude_none` return the very
same `json.loads(string)`. -/
def parse (dct : Value) (exclude_none : Bool) : Option JValue :=
  match gallonDumps dct with
  | some string => if exclude_none then jsonLoads string else jsonLoads string
  | Option.none => Option.none

/-- `GallonModel.dict` (data.py lines 230-232): `parse(self.__dict__)`,
where the instance `__dict__` is the field mapping. -/
def GallonModel.dict (fields : List (String × Value)) (exclude_none : Bool) :
    Option JValue :=
  parse (.dict fields) exclude_none

/-- `GallonModel.json` (data.py lines 234-238):
`json.dumps(self.dict(...), cls=GallonEncoder, indent=4)`. -/
def GallonModel.json (fields : List (String × Value)) (exclude_none : Bool) :
    Option String :=
  (GallonModel.dict fields exclude_none).bind (dump4 PYFUEL 0)

/-- `dumps` (data.py lines 241-249):
`json.dumps(parse(obj, exclude_none), cls=GallonEncoder, indent=4)`. -/
def dumps (obj : Value) (exclude_none : Bool) : Option String :=
  (parse obj exclude_none).bind (dump4 PYFUEL 0)

/-- `loads` (data.py lines 252-256): `json.loads(dumps(string))`.  The
argument is a string, so `dumps` serialises it *as a JSON string literal*,
and the final `json.loads` merely undoes that quoting. -/
def loads (string : String) : Option JValue :=
  (dumps (.str string) true).bind jsonLoads

/-! ## Claims about the dataclass layer -/

@[simp] theorem Value.isNone_none : Value.isNone .none = true := rfl

@[simp] theorem Value.isEllipsis_none : Value.isEllipsis .none = false := rfl

@[simp] theorem Value.isEllipsis_ellipsis : Value.isEllipsis .ellipsis = true := rfl

/-- If the first fields of a record resolve successfully and the remaining
fields then raise, the whole construction raises that error (the loop in
`DataClass.__init__` aborts at the first exception). -/
theorem construct_append_error (l1 l2 : List FieldDecl) (kw : String → Value)
    (md md1 : Metadata) (fs : List (String × Value)) (cs : List (String × Nat)) (e : Err)
    (h1 : construct l1 kw md = .ok (fs, cs, md1))
    (h2 : construct l2 kw md1 = .error e) :
    construct (l1 ++ l2) kw md = .error e := by
  induction l1 generalizing md fs cs with
  | nil =>
    simp only [construct, Except.ok.injEq, Prod.mk.injEq] at h1
    obtain ⟨-, -, h3⟩ := h1
    subst h3
    simpa using h2
  | cons f rest ih =>
    simp only [List.cons_append, construct] at h1 ⊢
    cases hi : initField f (kw f.name) md with
    | error e2 => rw [hi] at h1; cases h1
    | ok r =>
      obtain ⟨v, calls, mdA⟩ := r
      rw [hi] at h1
      dsimp only at h1 ⊢
      cases hr : construct rest kw mdA with
      | error e2 => rw [hr] at h1; cases h1
      | ok r2 =>
        obtain ⟨fs2, cs2, md2⟩ := r2
        rw [hr] at h1
        simp only [Except.ok.injEq, Prod.mk.injEq] at h1
        obtain ⟨-, -, h3⟩ := h1
        subst h3
        rw [List.append_eq] at *
        rw [ih mdA fs2 cs2 hr]

/-- C1: the claim says each instance's metadata lists exactly its own
indexed/unique field names and no two instances share a metadata structure.
The code instead mutates the single class-level dict `metadata` in place on
every construction (data.py lines 146, 181-184).  Evaluating the code at
the failing input — constructing `User(age=30)` twice in sequence — shows
the first construction already leaves `uniques = ["id"]` in the shared
dict, and the second construction, which threads that same dict, leaves
`uniques = ["id", "id"]`, which every instance then observes; the claim
demands each instance observe `["id"]` in a structure of its own. -/
theorem metadata_shared_across_instances :
    construct userDecls kwAge30 ⟨[], []⟩ =
      .ok ([("id", .none), ("name", .str "anon"), ("age", .int 30)],
           [("id", 0), ("name", 0), ("age", 0)], ⟨[], ["id"]⟩)
    ∧ construct userDecls kwAge30 ⟨[], ["id"]⟩ =
      .ok ([("id", .none), ("name", .str "anon"), ("age", .int 30)],
           [("id", 0), ("name", 0), ("age", 0)], ⟨[], ["id", "id"]⟩)
    ∧ (["id", "id"] : List String) ≠ ["id"] :=
  ⟨rfl, rfl, by decide⟩

/-- C3: for every record type and every field whose spec has the `Required`
sentinel as default and no default factory, a construction that supplies no
value for that field (here: the fields before it resolve normally) fails
with the missing-required-field error, so no instance is returned. -/
theorem required_missing_fails (pre post : List FieldDecl) (d : FieldDecl)
    (s : DataFieldModel) (kw : String → Value) (md md1 : Metadata)
    (fs : List (String × Value)) (cs : List (String × Nat))
    (hpre : construct pre kw md = .ok (fs, cs, md1))
    (hspec : d.spec = some s) (hdef : s.default = .ellipsis)
    (hfac : s.default_factory = Option.none) (hkw : kw d.name = .none) :
    construct (pre ++ d :: post) kw md = .error (.missingRequiredField d.name) := by
  refine construct_append_error pre (d :: post) kw md md1 fs cs _ hpre ?_
  simp [construct, initField, hspec, hdef, hfac, hkw, Value.isEllipsis, Value.isNone]

/-- Witness for C3: `User()` fails with the missing-required-field error on
`age`, exactly the spec's scenario. -/
theorem required_missing_fails_app :
    construct ([idDecl, nameDecl] ++ ageDecl :: []) (fun _ => Value.none) ⟨[], []⟩
      = .error (.missingRequiredField "age") :=
  required_missing_fails [idDecl, nameDecl] [] ageDecl ageSpec (fun _ => Value.none)
    ⟨[], []⟩ ⟨[], ["id"]⟩ [("id", .none), ("name", .str "anon")] [("id", 0), ("name", 0)]
    rfl rfl rfl rfl rfl

/-- C5: the claim says a supplied non-null value that does not satisfy the
field's resolved type fails with a type-mismatch error during construction
or descriptor write.  The code never type-checks supplied values: the check
at data.py line 152 is `type(value) not in (type(value), DataFieldModel)`,
which is always `False`, and `DataFieldDescriptor.__set__` (lines 57-61)
stores without an `isinstance` test — contradicting both docstrings
("enforces type checking during assignment") and the dead check's own
error message.  Evaluating the code at the failing input `User(age="thirty")`
(with `age : int`): construction succeeds and stores the string, and the
descriptor write accepts it as well. -/
theorem supplied_value_not_type_checked :
    isinst (.str "thirty") .intT = false
    ∧ construct [ageDecl] (fun _ => Value.str "thirty") ⟨[], []⟩
        = .ok ([("age", .str "thirty")], [("age", 0)], ⟨[], []⟩)
    ∧ ageSpec.set "age" (.str "thirty") 0 = .ok (.str "thirty", 0) :=
  ⟨rfl, rfl, rfl⟩

/-- C6 counterexample: the claim says every field with a default factory and
no supplied value has its factory invoked exactly once per construction.
For a field that also carries a non-null static default, constructing with
no supplied value stores the static default and never invokes the factory
(invocation count 0, not 1): no run of this construction has count 1. -/
theorem factory_skipped_with_static_default :
    construct [bothDecl] (fun _ => Value.none) ⟨[], []⟩
      = .ok ([("x", .int 5)], [("x", 0)], ⟨[], []⟩)
    ∧ ¬ ∃ fs md2, construct [bothDecl] (fun _ => Value.none) ⟨[], []⟩
        = .ok (fs, [("x", 1)], md2) := by
  refine ⟨rfl, ?_⟩
  rintro ⟨fs, md2, h⟩
  simp [construct, initField, bothSpec, bothDecl, DataFieldModel.set,
    Value.isNone, Value.isEllipsis, isinst] at h

/-- C6 amended: for every field whose spec has a default factory and a null
static default, and which receives no supplied value, if the factory's
first result is non-null and satisfies the field's type, the factory is
invoked exactly once during the construction and that result becomes the
field's stored value.  (Beyond the counterexample's restriction: a null
factory result would be re-substituted by a second factory call in the
descriptor write, and a type-mismatching result raises instead.) -/
theorem factory_invoked_once (name : String) (ty : Ty) (g : Nat → Value)
    (md : Metadata) (hres : (g 0).isNone = false) (hty : isinst (g 0) ty = true) :
    construct [⟨name, ty, some { default := .none, default_factory := some g }⟩]
      (fun _ => Value.none) md
      = .ok ([(name, g 0)], [(name, 1)], md) := by
  simp [construct, initField, DataFieldModel.set, hres, hty]

/-- Witness for C6: a factory returning `7` on an `int` field is invoked
exactly once and `7` is stored. -/
theorem factory_invoked_once_app :
    construct [⟨"x", Ty.intT,
        some { default := Value.none, default_factory := some (fun _ => Value.int 7) }⟩]
      (fun _ => Value.none) ⟨[], []⟩
      = .ok ([("x", Value.int 7)], [("x", 1)], ⟨[], []⟩) :=
  factory_invoked_once "x" .intT (fun _ => .int 7) ⟨[], []⟩ rfl rfl

/-- C9: a non-null static default that does not satisfy the field's type is
skipped by the constructor's guarded branch (data.py line 169 leaves the
value `None`), after which the descriptor write substitutes the default
with no type check (lines 97-99): construction succeeds and the
type-mismatched default is the stored value, with no error raised. -/
theorem mismatched_default_stored (name : String) (ty : Ty) (dflt : Value)
    (md : Metadata) (hne : dflt.isNone = false) (hell : dflt.isEllipsis = false)
    (hty : isinst dflt ty = false) :
    construct [⟨name, ty, some { default := dflt }⟩] (fun _ => Value.none) md
      = .ok ([(name, dflt)], [(name, 0)], md) := by
  simp [construct, initField, DataFieldModel.set, hne, hell, hty]

/-- Witness for C9: the string default `"bad"` on an `int` field is stored
unchanged and construction succeeds. -/
theorem mismatched_default_stored_app :
    construct [⟨"x", Ty.intT, some { default := Value.str "bad" }⟩]
      (fun _ => Value.none) ⟨[], []⟩
      = .ok ([("x", Value.str "bad")], [("x", 0)], ⟨[], []⟩) :=
  mismatched_default_stored "x" .intT (.str "bad") ⟨[], []⟩ rfl rfl rfl

/-- Helper for C4: if some class attribute holds a field spec whose name is
not annotated, the scan of `DataMetaClass.__new__` reports an offender. -/
theorem firstUnannotated_isSome (specs : List (String × DataFieldModel))
    (anns : List (String × Ty)) (n : String) (s : DataFieldModel)
    (hmem : (n, s) ∈ specs) (hann : hasAnn anns n = false) :
    ∃ m, firstUnannotated specs anns = some m := by
  induction specs with
  | nil => cases hmem
  | cons p rest ih =>
    obtain ⟨n0, s0⟩ := p
    by_cases h0 : hasAnn anns n0
    · rcases List.mem_cons.mp hmem with heq | htail
      · obtain ⟨rfl, rfl⟩ := Prod.mk.injEq .. ▸ heq
        · exact absurd h0 (by simp [hann])
      · obtain ⟨m, hm⟩ := ih htail
        exact ⟨m, by simp [firstUnannotated, h0, hm]⟩
    · exact ⟨n0, by simp [firstUnannotated, h0]⟩

/-- C4: for every record type declaration, if any attribute carries a field
spec but has no type annotation, the type definition itself fails with the
configuration error — `defineRecordType` is the only producer of the field
declarations `construct` consumes, so the failure precedes any possible
instantiation. -/
theorem unannotated_fieldspec_rejected (specs : List (String × DataFieldModel))
    (anns : List (String × Ty)) (n : String) (s : DataFieldModel)
    (hmem : (n, s) ∈ specs) (hann : hasAnn anns n = false) :
    ∃ m, defineRecordType specs anns = .error (.configurationError m) := by
  obtain ⟨m, hm⟩ := firstUnannotated_isSome specs anns n s hmem hann
  exact ⟨m, by simp [defineRecordType, hm]⟩

/-- Witness for C4: a class with attribute `x = field()` and no annotations
is rejected at definition time. -/
theorem unannotated_fieldspec_rejected_app :
    (("x", ({} : DataFieldModel)) ∈ [("x", ({} : DataFieldModel))])
    ∧ hasAnn [] "x" = false
    ∧ ∃ m, defineRecordType [("x", {})] [] = .error (.configurationError m) :=
  ⟨by simp, rfl, unannotated_fieldspec_rejected _ _ "x" {} (by simp) rfl⟩

/-! ## Claims about the serialization layer -/

/-- The base64 alphabet is inverted exactly by `b64inv`. -/
theorem b64inv_b64chr : ∀ n, n < 64 → b64inv (b64chr n) = n := by decide

/-- The padding character maps to `b64inv`'s sentinel. -/
theorem b64inv_pad : b64inv '=' = 64 := by decide

/-- Splitting a value into a `k`-chunk and a remainder below `k` is undone
by division and remainder. -/
theorem chunkDiv (k q r : Nat) (hk : 0 < k) (hr : r < k) :
    (q * k + r) / k = q ∧ (q * k + r) % k = r := by
  constructor
  · rw [Nat.mul_comm q k, Nat.mul_add_div hk, Nat.div_eq_of_lt hr, Nat.add_zero]
  · rw [Nat.mul_comm q k, Nat.mul_add_mod, Nat.mod_eq_of_lt hr]

/-- Base64 decoding inverts base64 encoding on byte sequences. -/
theorem b64_roundtrip : ∀ l : List Nat, (∀ x ∈ l, x < 256) →
    b64decodeCore (b64encodeCore l) = l
  | [], _ => rfl
  | [a], h => by
    have ha : a < 256 := h a (by simp)
    have h1 := b64inv_b64chr (a / 4) (by omega)
    have h2 := b64inv_b64chr (a % 4 * 16) (by omega)
    simp only [b64encodeCore, b64decodeCore, h1, h2, b64inv_pad, if_pos]
    simp only [List.cons.injEq, and_true]
    omega
  | [a, b], h => by
    have ha : a < 256 := h a (by simp)
    have hb : b < 256 := h b (by simp)
    have h1 := b64inv_b64chr (a / 4) (by omega)
    have h2 := b64inv_b64chr (a % 4 * 16 + b / 16) (by omega)
    have h3 := b64inv_b64chr (b % 16 * 4) (by omega)
    simp only [b64encodeCore, b64decodeCore, h1, h2, h3, b64inv_pad]
    have hx := (chunkDiv 16 (a % 4) (b / 16) (by norm_num) (by omega)).1
    have hy := (chunkDiv 16 (a % 4) (b / 16) (by norm_num) (by omega)).2
    simp only [if_true, hx, hy]
    rw [if_neg (by omega)]
    simp only [List.cons.injEq, and_true]
    omega
  | a :: b :: c :: rest, h => by
    have ha : a < 256 := h a (by simp)
    have hb : b < 256 := h b (by simp)
    have hc : c < 256 := h c (by simp)
    have h1 := b64inv_b64chr (a / 4) (by omega)
    have h2 := b64inv_b64chr (a % 4 * 16 + b / 16) (by omega)
    have h3 := b64inv_b64chr (b % 16 * 4 + c / 64) (by omega)
    have h4 := b64inv_b64chr (c % 64) (by omega)
    have ih := b64_roundtrip rest (fun x hx => h x (by simp [hx]))
    have hx := (chunkDiv 16 (a % 4) (b / 16) (by norm_num) (by omega)).1
    have hy := (chunkDiv 16 (a % 4) (b / 16) (by norm_num) (by omega)).2
    have hz := (chunkDiv 4 (b % 16) (c / 64) (by norm_num) (by omega)).1
    have hw := (chunkDiv 4 (b % 16) (c / 64) (by norm_num) (by omega)).2
    simp only [b64encodeCore, b64decodeCore, h1, h2, h3, h4]
    rw [if_neg (by omega), if_neg (by omega)]
    simp only [List.cons.injEq, hx, hy, hz, hw]
    exact ⟨by omega, by omega, by omega, ih⟩

/-- C7: for every byte sequence, the `bytes` branch of
`GallonEncoder.default` yields the UTF-8 decoded text when the bytes are
valid UTF-8, and otherwise a base64 string whose base64 decoding restores
exactly the original bytes. -/
theorem bytes_encoding_roundtrip (bs : List Nat) (h : ∀ x ∈ bs, x < 256) :
    (∀ s, utf8Decode bs = some s → encodeBytes bs = s)
    ∧ (utf8Decode bs = Option.none → b64decode (encodeBytes bs) = bs) := by
  constructor
  · intro s hs
    simp [encodeBytes, hs]
  · intro hn
    simp only [encodeBytes, hn]
    exact b64_roundtrip bs h

/-- Witness for C7: the spec's scenario bytes `b"\xff\xfe"` are invalid
UTF-8 and encode to `"//4="`, which decodes back to them. -/
theorem bytes_encoding_roundtrip_app :
    (∀ x ∈ [255, 254], x < 256)
    ∧ ((∀ s, utf8Decode [255, 254] = some s → encodeBytes [255, 254] = s)
       ∧ (utf8Decode [255, 254] = Option.none →
            b64decode (encodeBytes [255, 254]) = [255, 254]))
    ∧ utf8Decode [255, 254] = Option.none
    ∧ encodeBytes [255, 254] = "//4=" :=
  ⟨by decide, bytes_encoding_roundtrip [255, 254] (by decide), rfl, rfl⟩

/-- C8: `parse` with `exclude_none=True` equals `parse` with
`exclude_none=False` on every value — both branches of the source's `if`
return the identical `json.loads(string)`, so the parameter never strips
null-valued entries. -/
theorem parse_ignores_exclude_none (d : Value) : parse d true = parse d false := by
  unfold parse
  cases gallonDumps d <;> simp

/-- C2: the claim states the round-trip law `loads(r.json()) == r.dict()`.
It fails: `loads` (data.py lines 252-256) feeds its *string* argument back
through `dumps`, which serialises it as a JSON string literal, so
`json.loads` returns the original string, never a mapping — contradicting
`loads`' own docstring ("Parse a JSON-formatted string and convert it back
to an object").  Evaluating the code at the failing input, the record
instance with fields `{a: 1}`: its JSON text round-trips to itself as a
`str`, while `r.dict()` is the mapping `{"a": 1}`. -/
theorem loads_returns_text_not_mapping :
    GallonModel.json [("a", Value.int 1)] true = some "\x7b\n    \"a\": 1\n\x7d"
    ∧ loads "\x7b\n    \"a\": 1\n\x7d" = some (.str "\x7b\n    \"a\": 1\n\x7d")
    ∧ GallonModel.dict [("a", Value.int 1)] true = some (.obj [("a", .num 1)])
    ∧ loads "\x7b\n    \"a\": 1\n\x7d" ≠ GallonModel.dict [("a", Value.int 1)] true := by
  refine ⟨rfl, rfl, rfl, ?_⟩
  intro hcontra
  rw [show loads "\x7b\n    \"a\": 1\n\x7d" = some (.str "\x7b\n    \"a\": 1\n\x7d") from rfl,
    show GallonModel.dict [("a", Value.int 1)] true = some (.obj [("a", .num 1)]) from rfl]
    at hcontra
  simp at hcontra

/-- C10: when the encoder reaches a value exposing a `json()` method
(`hasattr(o, "json")`, data.py lines 208-209) — such as a nested record —
the encoded output carries exactly the string that method returns: the
nested value appears as a JSON string, which is never a mapping. -/
theorem nested_json_as_string (fuel : Nat) (k t : String) :
    pyToJ (fuel + 2) (.dict [(k, .withJson t)]) = some (.obj [(k, .str t)])
    ∧ ∀ entries, JValue.str t ≠ JValue.obj entries := by
  refine ⟨rfl, ?_⟩
  intro entries hcontra
  simp at hcontra

end Gallon
